import Mathlib

/-!
Shallow embedding of the bitmovin provider adapter
(src/provider/bitmovin/bitmovin.go) of the video-transcoding-api
repository, together with theorems settling the frozen claims about it.

Go strings are Lean strings; Go int values are Lean Int with the int64
range check made explicit where Go performs it; Go (value, error) pairs
become Except / explicit pairs; a Go runtime panic is an explicit
Outcome.panicked value.  The remote bitmovin service (the bitmovin-go
SDK) and the db.Preset input type are external collaborators of this
repository; they are modelled from the spec as an explicit state record
plus a behaviour record that scripts which remote calls report a
service-level ERROR status.
-/

/-- Go strings.ToLower restricted to the ASCII range, which is the only
range the adapter compares (codec and profile names). -/
def goToLower (s : String) : String :=
  String.mk (s.toList.map (fun c =>
    if 'A' ≤ c ∧ c ≤ 'Z' then Char.ofNat (c.toNat + 32) else c))

/-- Accumulate decimal digits; none when a non-digit character occurs. -/
def digitsToNat (acc : Nat) : List Char → Option Nat
  | [] => some acc
  | c :: cs =>
    if '0' ≤ c ∧ c ≤ '9' then digitsToNat (acc * 10 + (c.toNat - 48)) cs
    else none

/-- Quote a string the way strconv error messages do. -/
def goQuote (s : String) : String := "\"" ++ s ++ "\""

/-- The message of a strconv.Atoi syntax error. -/
def atoiSyntaxErr (s : String) : String :=
  "strconv.Atoi: parsing " ++ goQuote s ++ ": invalid syntax"

/-- The message of a strconv.Atoi range error. -/
def atoiRangeErr (s : String) : String :=
  "strconv.Atoi: parsing " ++ goQuote s ++ ": value out of range"

/-- Go strconv.Atoi on a 64-bit platform: optional sign, one or more
decimal digits, value within the int64 range; anything else is an
error carrying the offending string. -/
def goAtoi (s : String) : Except String Int :=
  let cs := s.toList
  let signDigits : Bool × List Char :=
    match cs with
    | '-' :: rest => (true, rest)
    | '+' :: rest => (false, rest)
    | l => (false, l)
  match signDigits.2 with
  | [] => Except.error (atoiSyntaxErr s)
  | ds =>
    match digitsToNat 0 ds with
    | none => Except.error (atoiSyntaxErr s)
    | some n =>
      let v : Int := if signDigits.1 then -(n : Int) else (n : Int)
      if v < -(2 ^ 63) ∨ (2 ^ 63 - 1 : Int) < v then
        Except.error (atoiRangeErr s)
      else
        Except.ok v

/-- Go strings.TrimSuffix: drop the suffix when present, else identity. -/
def goTrimSuffix (s suf : String) : String :=
  if suf.toList.isSuffixOf s.toList then
    String.mk (s.toList.take (s.toList.length - suf.toList.length))
  else s

/-- Go strings.TrimPrefix: drop the leading occurrence when present. -/
def goTrimStart (s pre : String) : String :=
  if pre.toList.isPrefixOf s.toList then
    String.mk (s.toList.drop pre.toList.length)
  else s

/-- Split a character list at every occurrence of the separator; like Go
strings.Split with a one-character separator, the result is never empty. -/
def splitOnChar (sep : Char) : List Char → List (List Char)
  | [] => [[]]
  | c :: cs =>
    if c = sep then [] :: splitOnChar sep cs
    else
      match splitOnChar sep cs with
      | [] => [[c]]
      | g :: gs => (c :: g) :: gs

/-- Go strings.Split of a string on the slash character. -/
def goSplitSlash (s : String) : List String :=
  (splitOnChar '/' s.toList).map String.mk

/-- Modelled from the spec: db.Preset.VideoPreset of the orchestration
layer (not under src/), string-typed fields per the data model section. -/
structure VideoPreset where
  Codec : String
  Profile : String
  ProfileLevel : String
  Width : String
  Height : String
  Bitrate : String
  GopSize : String
deriving DecidableEq

/-- Modelled from the spec: db.Preset.AudioPreset of the orchestration
layer (not under src/), string-typed fields per the data model section. -/
structure AudioPreset where
  Codec : String
  Bitrate : String
deriving DecidableEq

/-- Modelled from the spec: db.Preset, the generic preset descriptor the
adapter translates. -/
structure Preset where
  Video : VideoPreset
  Audio : AudioPreset
deriving DecidableEq

/-- Modelled from the spec: a remote AAC codec configuration, keyed by
its defining attribute (bitrate) plus its remote identifier; sampling
rate is recorded in hertz. -/
structure AACCodecConfiguration where
  id : String
  bitrate : Int
  samplingRate : Nat
deriving DecidableEq

/-- The H264 profile enumeration of the target service. -/
inductive H264Profile where
  | baseline
  | main
  | high
deriving DecidableEq

/-- A value stored in the loosely-typed custom-data bag attached to a
video configuration: either a string or some non-string payload. -/
inductive CustomValue where
  | str (s : String)
  | nonString
deriving DecidableEq

/-- Modelled from the spec: a remote H264 codec configuration as built
by the translator, with the open-ended custom-data side channel. -/
structure H264CodecConfiguration where
  id : String
  profile : H264Profile
  level : String
  width : Option Int
  height : Option Int
  bitrate : Option Int
  maxGOP : Option Int
  customData : List (String × CustomValue)
deriving DecidableEq

/-- The fixed, ordered table of H264 levels the adapter accepts.  The
level identifier strings follow the target SDK's enumeration; per the
spec they are not simple numbers (for example the level between 1 and
1.1 is written 1b). -/
def h264Levels : List String :=
  ["1", "1b", "1.1", "1.2", "1.3",
   "2", "2.1", "2.2",
   "3", "3.1", "3.2",
   "4", "4.1", "4.2",
   "5", "5.1", "5.2"]

/-- The AWS cloud regions appearing in the adapter's host table. -/
inductive AWSCloudRegion where
  | usEast1
  | usWest1
  | usWest2
  | apSouth1
  | apNortheast1
  | apNortheast2
  | apSoutheast1
  | apSoutheast2
  | euCentral1
  | euWest1
  | saEast1
deriving DecidableEq

/-- The fixed table mapping S3 endpoint host names (regional and
dual-stack variants) to AWS cloud regions. -/
def s3UrlCloudRegionMap : List (String × AWSCloudRegion) :=
  [("s3.amazonaws.com", AWSCloudRegion.usEast1),
   ("s3-external-1.amazonaws.com", AWSCloudRegion.usEast1),
   ("s3.dualstack.us-east-1.amazonaws.com", AWSCloudRegion.usEast1),
   ("s3-us-west-1.amazonaws.com", AWSCloudRegion.usWest1),
   ("s3.dualstack.us-west-1.amazonaws.com", AWSCloudRegion.usWest1),
   ("s3-us-west-2.amazonaws.com", AWSCloudRegion.usWest2),
   ("s3.dualstack.us-west-2.amazonaws.com", AWSCloudRegion.usWest2),
   ("s3.ap-south-1.amazonaws.com", AWSCloudRegion.apSouth1),
   ("s3-ap-south-1.amazonaws.com", AWSCloudRegion.apSouth1),
   ("s3.dualstack.ap-south-1.amazonaws.com", AWSCloudRegion.apSouth1),
   ("s3.ap-northeast-2.amazonaws.com", AWSCloudRegion.apNortheast2),
   ("s3-ap-northeast-2.amazonaws.com", AWSCloudRegion.apNortheast2),
   ("s3.dualstack.ap-northeast-2.amazonaws.com", AWSCloudRegion.apNortheast2),
   ("s3-ap-southeast-1.amazonaws.com", AWSCloudRegion.apSoutheast1),
   ("s3.dualstack.ap-southeast-1.amazonaws.com", AWSCloudRegion.apSoutheast1),
   ("s3-ap-southeast-2.amazonaws.com", AWSCloudRegion.apSoutheast2),
   ("s3.dualstack.ap-southeast-2.amazonaws.com", AWSCloudRegion.apSoutheast2),
   ("s3-ap-northeast-1.amazonaws.com", AWSCloudRegion.apNortheast1),
   ("s3.dualstack.ap-northeast-1.amazonaws.com", AWSCloudRegion.apNortheast1),
   ("s3.eu-central-1.amazonaws.com", AWSCloudRegion.euCentral1),
   ("s3-eu-central-1.amazonaws.com", AWSCloudRegion.euCentral1),
   ("s3.dualstack.eu-central-1.amazonaws.com", AWSCloudRegion.euCentral1),
   ("s3-eu-west-1.amazonaws.com", AWSCloudRegion.euWest1),
   ("s3.dualstack.eu-west-1.amazonaws.com", AWSCloudRegion.euWest1),
   ("s3-sa-east-1.amazonaws.com", AWSCloudRegion.saEast1),
   ("s3.dualstack.sa-east-1.amazonaws.com", AWSCloudRegion.saEast1)]

/-- Modelled from the spec: the state of the simulated remote encoding
service: the catalogues of audio and video configurations, a counter for
server-assigned identifiers, and per-endpoint call counters used to
observe which remote calls each adapter operation performs. -/
structure RemoteState where
  aacConfigs : List AACCodecConfiguration
  h264Configs : List H264CodecConfiguration
  nextID : Nat
  aacListCalls : Nat
  aacCreateCalls : Nat
  aacRetrieveCalls : Nat
  h264CreateCalls : Nat
  h264RetrieveCalls : Nat
  h264DeleteCalls : Nat
deriving DecidableEq

/-- Modelled from the spec: a script deciding, per endpoint and call
index, whether the remote service answers that call with a service-level
ERROR status (carrying the service's message) or with success.  This is
distinct from a transport error. -/
structure RemoteBehavior where
  aacListStatus : Nat → Option String
  aacCreateStatus : Nat → Option String
  aacRetrieveStatus : Nat → Option String
  h264CreateStatus : Nat → Option String
  h264RetrieveStatus : Nat → Option String
  h264DeleteStatus : Nat → Option String

/-- The remote behaviour in which every call succeeds. -/
def honestRemote : RemoteBehavior :=
  ⟨fun _ => none, fun _ => none, fun _ => none,
   fun _ => none, fun _ => none, fun _ => none⟩

/-- The remote service with empty catalogues and all counters zero. -/
def emptyRemote : RemoteState :=
  ⟨[], [], 0, 0, 0, 0, 0, 0, 0⟩

/-- Status of a remote response: success, or a service-level ERROR
status carrying the service's message. -/
inductive RStatus where
  | success
  | errorStatus (msg : String)
deriving DecidableEq

/-- Response of a list call: status, total count of resources of that
kind, and the requested page of items. -/
structure ListResponse where
  status : RStatus
  totalCount : Int
  items : List AACCodecConfiguration
deriving DecidableEq

/-- Response of a create call: status and the server-assigned id. -/
structure CreateResponse where
  status : RStatus
  id : String
deriving DecidableEq

/-- Response of a retrieve call: a service-level failure status, or the
resource. -/
inductive Retrieved (α : Type) where
  | errorStatus (msg : String)
  | success (a : α)
deriving DecidableEq

/-- Modelled from the spec: the paginated AAC configuration list
endpoint; returns the page of the catalogue selected by offset and
limit, together with the catalogue's total count. -/
def aacList (b : RemoteBehavior) (st : RemoteState) (offset limit : Int) :
    ListResponse × RemoteState :=
  let st' := { st with aacListCalls := st.aacListCalls + 1 }
  match b.aacListStatus st.aacListCalls with
  | some m => (⟨RStatus.errorStatus m, 0, []⟩, st')
  | none =>
    (⟨RStatus.success, (st.aacConfigs.length : Int),
      (st.aacConfigs.drop offset.toNat).take limit.toNat⟩, st')

/-- Modelled from the spec: the AAC configuration create endpoint;
appends the configuration under a fresh server-assigned id. -/
def aacCreate (b : RemoteBehavior) (st : RemoteState)
    (bitrate : Int) (samplingRate : Nat) : CreateResponse × RemoteState :=
  match b.aacCreateStatus st.aacCreateCalls with
  | some m =>
    (⟨RStatus.errorStatus m, ""⟩,
     { st with aacCreateCalls := st.aacCreateCalls + 1 })
  | none =>
    let newID := "cfg" ++ toString st.nextID
    (⟨RStatus.success, newID⟩,
     { st with
        aacConfigs := st.aacConfigs ++ [⟨newID, bitrate, samplingRate⟩],
        nextID := st.nextID + 1,
        aacCreateCalls := st.aacCreateCalls + 1 })

/-- Modelled from the spec: the AAC configuration retrieve endpoint; an
unknown id is reported by the service as an error status. -/
def aacRetrieve (b : RemoteBehavior) (st : RemoteState) (id : String) :
    Retrieved AACCodecConfiguration × RemoteState :=
  let st' := { st with aacRetrieveCalls := st.aacRetrieveCalls + 1 }
  match b.aacRetrieveStatus st.aacRetrieveCalls with
  | some m => (Retrieved.errorStatus m, st')
  | none =>
    match st.aacConfigs.find? (fun c => c.id = id) with
    | none => (Retrieved.errorStatus ("resource not found"), st')
    | some c => (Retrieved.success c, st')

/-- Modelled from the spec: the H264 configuration create endpoint;
appends the configuration under a fresh server-assigned id. -/
def h264Create (b : RemoteBehavior) (st : RemoteState)
    (cfg : H264CodecConfiguration) : CreateResponse × RemoteState :=
  match b.h264CreateStatus st.h264CreateCalls with
  | some m =>
    (⟨RStatus.errorStatus m, ""⟩,
     { st with h264CreateCalls := st.h264CreateCalls + 1 })
  | none =>
    let newID := "cfg" ++ toString st.nextID
    (⟨RStatus.success, newID⟩,
     { st with
        h264Configs := st.h264Configs ++ [{ cfg with id := newID }],
        nextID := st.nextID + 1,
        h264CreateCalls := st.h264CreateCalls + 1 })

/-- Modelled from the spec: the H264 configuration retrieve endpoint; an
unknown id is reported by the service as an error status. -/
def h264Retrieve (b : RemoteBehavior) (st : RemoteState) (id : String) :
    Retrieved H264CodecConfiguration × RemoteState :=
  let st' := { st with h264RetrieveCalls := st.h264RetrieveCalls + 1 }
  match b.h264RetrieveStatus st.h264RetrieveCalls with
  | some m => (Retrieved.errorStatus m, st')
  | none =>
    match st.h264Configs.find? (fun c => c.id = id) with
    | none => (Retrieved.errorStatus ("resource not found"), st')
    | some c => (Retrieved.success c, st')

/-- Modelled from the spec: the H264 configuration delete endpoint;
removes the configuration with the given id, touching nothing else. -/
def h264Delete (b : RemoteBehavior) (st : RemoteState) (id : String) :
    RStatus × RemoteState :=
  match b.h264DeleteStatus st.h264DeleteCalls with
  | some m =>
    (RStatus.errorStatus m,
     { st with h264DeleteCalls := st.h264DeleteCalls + 1 })
  | none =>
    (RStatus.success,
     { st with
        h264Configs := st.h264Configs.filter (fun c => c.id ≠ id),
        h264DeleteCalls := st.h264DeleteCalls + 1 })

/-- Result of an adapter operation: Go's (value, error) convention with
an explicit constructor for a runtime panic. -/
inductive Outcome (α : Type) where
  | ok (a : α)
  | err (e : String)
  | panicked (msg : String)
deriving DecidableEq

/-- The Go runtime message of a nil-pointer dereference panic. -/
def nilPointerMsg : String :=
  "runtime error: invalid memory address or nil pointer dereference"

/-- The scan of CreatePreset over the listed audio configurations: the
id of the first configuration whose bitrate equals the requested bitrate
exactly, the empty string when none matches (mirroring the Go loop that
leaves audioConfigID at its zero value). -/
def findAudioID (bitrate : Int) : List AACCodecConfiguration → String
  | [] => ""
  | c :: rest => if c.bitrate = bitrate then c.id else findAudioID bitrate rest

/-- The treatment of one optional numeric field of the video preset:
parsed only when the string is non-empty; empty means left unset. -/
def parseOptionalField (value : String) : Except String (Option Int) :=
  if value ≠ "" then
    match goAtoi value with
    | Except.error e => Except.error e
    | Except.ok n => Except.ok (some n)
  else Except.ok none

/-- The profile step of createVideoPreset: the fixed case-insensitive
profile enumeration, the empty profile defaulting to main. -/
def mapProfile (preset : Preset) : Except String H264Profile :=
  match goToLower preset.Video.Profile with
  | "high" => Except.ok H264Profile.high
  | "main" => Except.ok H264Profile.main
  | "baseline" => Except.ok H264Profile.baseline
  | "" => Except.ok H264Profile.main
  | _ => Except.error ("Unrecognized H264 Profile: " ++ preset.Video.Profile)

/-- createVideoPreset of the bitmovin provider: maps the profile through
the fixed case-insensitive enumeration (empty defaulting to main), looks
the level up by exact match in the ordered level table, parses the
optional Width, Height and GopSize only when non-empty, and requires a
parsable non-empty video Bitrate. -/
def createVideoPreset (preset : Preset) : Except String H264CodecConfiguration :=
  match mapProfile preset with
  | Except.error e => Except.error e
  | Except.ok profile =>
    match h264Levels.find? (fun l => l = preset.Video.ProfileLevel) with
    | none =>
      Except.error ("Unrecognized H264 Level: " ++ preset.Video.ProfileLevel)
    | some level =>
      match parseOptionalField preset.Video.Width with
      | Except.error e => Except.error e
      | Except.ok width =>
        match parseOptionalField preset.Video.Height with
        | Except.error e => Except.error e
        | Except.ok height =>
          if preset.Video.Bitrate = "" then
            Except.error ("Video Bitrate must be set")
          else
            match goAtoi preset.Video.Bitrate with
            | Except.error e => Except.error e
            | Except.ok bitrate =>
              match parseOptionalField preset.Video.GopSize with
              | Except.error e => Except.error e
              | Except.ok maxGOP =>
                Except.ok ⟨"", profile, level, width, height,
                  some bitrate, maxGOP, []⟩

/-- CreatePreset of the bitmovin provider: rejects unsupported codecs
before touching the remote service; lists the audio catalogue in two
phases (a count probe with limit 1, then a fetch with limit
totalCount - 1); parses the audio bitrate; scans for an exact bitrate
match and creates a 48 kHz audio configuration only on miss; then
translates the video preset and creates it remotely with the audio id
attached under the custom-data key audio.  The error returned by
createVideoPreset is not inspected before the nil configuration's
custom data is assigned, so a failed translation is a nil-pointer
dereference panic, mirrored by Outcome.panicked. -/
def CreatePreset (b : RemoteBehavior) (st : RemoteState) (preset : Preset) :
    Outcome String × RemoteState :=
  if goToLower preset.Audio.Codec ≠ "aac" then
    (Outcome.err ("Unsupported Audio codec: " ++ preset.Audio.Codec), st)
  else if goToLower preset.Video.Codec ≠ "h264" then
    (Outcome.err ("Unsupported Video codec: " ++ preset.Video.Codec), st)
  else
    let r1 := aacList b st 0 1
    match r1.1.status with
    | RStatus.errorStatus _ => (Outcome.err (""), r1.2)
    | RStatus.success =>
      let totalCount := r1.1.totalCount
      let r2 := aacList b r1.2 0 (totalCount - 1)
      match r2.1.status with
      | RStatus.errorStatus _ => (Outcome.err (""), r2.2)
      | RStatus.success =>
        match goAtoi preset.Audio.Bitrate with
        | Except.error e => (Outcome.err e, r2.2)
        | Except.ok bitrate =>
          let audioConfigID := findAudioID bitrate r2.1.items
          let afterAudio : Outcome String × RemoteState :=
            if audioConfigID = "" then
              let r3 := aacCreate b r2.2 bitrate 48000
              match r3.1.status with
              | RStatus.errorStatus _ => (Outcome.err (""), r3.2)
              | RStatus.success => (Outcome.ok r3.1.id, r3.2)
            else (Outcome.ok audioConfigID, r2.2)
          match afterAudio with
          | (Outcome.err e, st3) => (Outcome.err e, st3)
          | (Outcome.panicked m, st3) => (Outcome.panicked m, st3)
          | (Outcome.ok audioID, st3) =>
            match createVideoPreset preset with
            | Except.error _ => (Outcome.panicked nilPointerMsg, st3)
            | Except.ok cfg =>
              let cfg := { cfg with customData := [("audio", CustomValue.str audioID)] }
              let r4 := h264Create b st3 cfg
              match r4.1.status with
              | RStatus.errorStatus _ => (Outcome.err (""), r4.2)
              | RStatus.success => (Outcome.ok r4.1.id, r4.2)

/-- DeletePreset of the bitmovin provider: deletes only the video
configuration named by the handle; the audio configuration is left
intact. -/
def DeletePreset (b : RemoteBehavior) (st : RemoteState) (presetID : String) :
    Except String Unit × RemoteState :=
  let r := h264Delete b st presetID
  match r.1 with
  | RStatus.errorStatus _ => (Except.error (""), r.2)
  | RStatus.success => (Except.ok (), r.2)

/-- The composite preset value GetPreset assembles. -/
structure BitmovinPreset where
  Video : H264CodecConfiguration
  Audio : AACCodecConfiguration
deriving DecidableEq

/-- GetPreset of the bitmovin provider, returning Go's (value, error)
pair: retrieves the video configuration, extracts the audio id from the
custom-data bag (failing when absent or not a string), retrieves the
audio configuration, and returns the joined preset — together with a
non-nil Not implemented error on the final line. -/
def GetPreset (b : RemoteBehavior) (st : RemoteState) (presetID : String) :
    (Option BitmovinPreset × Option String) × RemoteState :=
  let r := h264Retrieve b st presetID
  match r.1 with
  | Retrieved.errorStatus _ => ((none, some ("")), r.2)
  | Retrieved.success h264Config =>
    match h264Config.customData.find? (fun p => p.1 = "audio") with
    | none =>
      ((none, some ("No Audio configuration found for Video Preset")), r.2)
    | some kv =>
      match kv.2 with
      | CustomValue.nonString =>
        ((none, some ("Audio Configuration somehow not a string")), r.2)
      | CustomValue.str s =>
        let ra := aacRetrieve b r.2 s
        match ra.1 with
        | Retrieved.errorStatus _ => ((none, some ("")), ra.2)
        | Retrieved.success aacConfig =>
          ((some ⟨h264Config, aacConfig⟩, some ("Not implemented")), ra.2)

/-- Locate the first scheme separator in a character list, returning the
characters before it and the characters after it. -/
def findSchemeSep : List Char → Option (List Char × List Char)
  | [] => none
  | ':' :: '/' :: '/' :: rest => some ([], rest)
  | c :: rest =>
    match findSchemeSep rest with
    | none => none
    | some p => some (c :: p.1, p.2)

/-- Split the part after the scheme separator into the host (up to the
first slash) and the path (from that slash on, inclusive). -/
def splitHostPath : List Char → List Char × List Char
  | [] => ([], [])
  | c :: rest =>
    if c = '/' then ([], c :: rest)
    else
      let p := splitHostPath rest
      (c :: p.1, p.2)

/-- Modelled from the spec: the standard-library URL parser is not part
of this repository; per the spec, storage URL inputs have the plain
scheme://host/path/to/object form.  A control character makes parsing
fail (as in net/url); without a scheme separator the whole input is the
path and the host is empty. -/
def parseURL (input : String) : Except String (String × String) :=
  if input.toList.any (fun c => c.toNat < 32) then
    Except.error ("net/url: invalid control character in URL")
  else
    match findSchemeSep input.toList with
    | none => Except.ok ("", input)
    | some p =>
      let hp := splitHostPath p.2
      Except.ok (String.mk hp.1, String.mk hp.2)

/-- parseS3URL of the bitmovin provider: parse the URL, take the final
slash-separated path segment as the file name, strip that segment and
the leading slash from the path to obtain the bucket name, and resolve
the host through the fixed region table.  Indexing the final split
segment is modelled as a panic when the split were ever empty. -/
def parseS3URL (input : String) :
    Outcome (String × String × AWSCloudRegion) :=
  match parseURL input with
  | Except.error e => Outcome.err e
  | Except.ok hp =>
    let s := goSplitSlash hp.2
    match s.getLast? with
    | none => Outcome.panicked ("runtime error: index out of range")
    | some fileName =>
      let bucketName := goTrimSuffix hp.2 ("/" ++ fileName)
      let bucketName := goTrimStart bucketName ("/")
      match s3UrlCloudRegionMap.find? (fun p => p.1 = hp.1) with
      | none =>
        Outcome.err ("Unable to determine AWS Region from Host: " ++ hp.1)
      | some entry => Outcome.ok (fileName, bucketName, entry.2)

/-- A fully valid preset: aac audio at 128, h264 main profile at level
3.1, 1280x720, video bitrate 3000, GOP 90. -/
def presetC1 : Preset :=
  ⟨⟨"h264", "main", "3.1", "1280", "720", "3000", "90"⟩, ⟨"aac", "128"⟩⟩

/-- A preset passing both codec checks whose profile is unsupported. -/
def presetC2 : Preset :=
  ⟨⟨"h264", "ultra", "3", "", "", "3000", ""⟩, ⟨"aac", "128"⟩⟩

/-- A valid preset with audio bitrate 128. -/
def presetC3 : Preset :=
  ⟨⟨"h264", "", "3", "", "", "3000", ""⟩, ⟨"aac", "128"⟩⟩

/-- A remote state whose audio catalogue holds one configuration of a
different bitrate (64). -/
def stC3 : RemoteState :=
  ⟨[⟨"a64", 64, 48000⟩], [], 0, 0, 0, 0, 0, 0, 0⟩

/-- A preset that is valid except that its audio bitrate is the empty
string. -/
def presetC4 : Preset :=
  ⟨⟨"h264", "main", "3", "", "", "3000", ""⟩, ⟨"aac", ""⟩⟩

/-- A remote behaviour whose delete endpoint reports a service-level
ERROR status with the given message on every call. -/
def failDelete (msg : String) : RemoteBehavior :=
  { honestRemote with h264DeleteStatus := fun _ => some msg }

/-- A remote state holding one audio configuration and two video
configurations, one of which references the audio configuration. -/
def stC9 : RemoteState :=
  ⟨[⟨"cfg0", 128, 48000⟩],
   [⟨"cfg1", H264Profile.main, "3", none, none, some 3000, none,
      [("audio", CustomValue.str ("cfg0"))]⟩,
    ⟨"cfg2", H264Profile.high, "4", none, none, some 5000, none, []⟩],
   3, 0, 0, 0, 0, 0, 0⟩

/-- The storage URL of the spec's worked resolver example. -/
def s3ExampleURL : String :=
  "https://s3-us-west-2.amazonaws.com/mybucket/path/video.mp4"

/-- C1: for a preset with aac audio, h264 video and all other fields
valid, CreatePreset succeeds and GetPreset on the returned handle
yields audio and video configurations whose bitrate, profile and level
match the input — but, contrary to the claim, GetPreset's error result
is the non-nil Not implemented error, never nil: the code builds the
joined preset and then returns it together with that error. -/
theorem c1_create_then_get :
    (CreatePreset honestRemote emptyRemote presetC1).1 = Outcome.ok ("cfg1")
  ∧ (GetPreset honestRemote (CreatePreset honestRemote emptyRemote presetC1).2
        ("cfg1")).1
      = (some ⟨⟨"cfg1", H264Profile.main, "3.1", some 1280, some 720,
            some 3000, some 90, [("audio", CustomValue.str ("cfg0"))]⟩,
          ⟨"cfg0", 128, 48000⟩⟩,
         some ("Not implemented")) := by
  exact ⟨rfl, rfl⟩

/-- C2: for a preset passing the codec checks whose profile is
unsupported, createVideoPreset returns the UnsupportedProfile error,
but CreatePreset does not return it: the error is never inspected and
the nil configuration is dereferenced, a runtime panic — contrary to
the claim that the error is returned and the operation never panics. -/
theorem c2_translation_error_panics :
    createVideoPreset presetC2
      = Except.error ("Unrecognized H264 Profile: ultra")
  ∧ (CreatePreset honestRemote emptyRemote presetC2).1
      = Outcome.panicked nilPointerMsg := by
  exact ⟨rfl, rfl⟩

/-- C3: two sequential CreatePreset calls with the same audio bitrate
perform two remote audio-configuration creates, not one: the second
list call of the dedup step asks for limit totalCount - 1, so the scan
never sees the last catalogue entry — exactly the configuration the
first call created — and the second call misses and creates a
duplicate, contrary to the claimed dedup hit. -/
theorem c3_dedup_misses_previous_config :
    (CreatePreset honestRemote stC3 presetC3).1 = Outcome.ok ("cfg1")
  ∧ (CreatePreset honestRemote (CreatePreset honestRemote stC3 presetC3).2
        presetC3).1 = Outcome.ok ("cfg3")
  ∧ ((CreatePreset honestRemote (CreatePreset honestRemote stC3 presetC3).2
        presetC3).2).aacCreateCalls = 2
  ∧ ((CreatePreset honestRemote (CreatePreset honestRemote stC3 presetC3).2
        presetC3).2).aacConfigs.length = 3 := by
  exact ⟨rfl, rfl, rfl, rfl⟩

/-- C4 counterexample: an empty Audio.Bitrate does cause CreatePreset
to fail — with the strconv syntax error for the empty string — contrary
to the claim that the empty string is tolerated for Audio.Bitrate. -/
theorem c4_counterexample :
    (CreatePreset honestRemote emptyRemote presetC4).1
      = Outcome.err (atoiSyntaxErr ("")) := by
  exact rfl

/-- C8 counterexample: a service-level ERROR status is surfaced as the
empty error, identical for two different service messages, so the
returned error value carries neither the failed operation nor the
service's message, contrary to the claim. -/
theorem c8_counterexample :
    (DeletePreset (failDelete ("boom")) emptyRemote ("v1")).1
      = Except.error ("")
  ∧ (DeletePreset (failDelete ("zap")) emptyRemote ("v1")).1
      = Except.error ("")
  ∧ ("boom" : String) ≠ ("zap") := by
  refine ⟨rfl, rfl, by decide⟩

/-- A preset whose audio codec is unsupported. -/
def presetC5a : Preset :=
  ⟨⟨"h264", "main", "3", "", "", "3000", ""⟩, ⟨"mp3", "128"⟩⟩

/-- A preset whose video codec is unsupported. -/
def presetC5b : Preset :=
  ⟨⟨"vp9", "main", "3", "", "", "3000", ""⟩, ⟨"aac", "128"⟩⟩

/-- A preset whose profile level appears in no table entry. -/
def presetC6 : Preset :=
  ⟨⟨"h264", "", "7", "", "", "3000", ""⟩, ⟨"aac", "128"⟩⟩

/-- C5: a preset whose audio codec is not case-insensitively aac, or
whose video codec is not case-insensitively h264, makes CreatePreset
fail with the unsupported-codec error naming the kind and the value,
and the remote state is returned untouched: the failure happens before
any remote call. -/
theorem c5_unsupported_codec_no_remote_call
    (b : RemoteBehavior) (st : RemoteState) (p : Preset) :
    (goToLower p.Audio.Codec ≠ "aac" →
      CreatePreset b st p
        = (Outcome.err ("Unsupported Audio codec: " ++ p.Audio.Codec), st))
  ∧ (goToLower p.Audio.Codec = "aac" → goToLower p.Video.Codec ≠ "h264" →
      CreatePreset b st p
        = (Outcome.err ("Unsupported Video codec: " ++ p.Video.Codec), st)) := by
  constructor
  · intro h
    unfold CreatePreset
    rw [if_pos h]
  · intro h1 h2
    unfold CreatePreset
    rw [if_neg (not_not_intro h1), if_pos h2]

/-- Witness for C5 at two concrete presets: an mp3 audio codec and a
vp9 video codec are each rejected with the remote state untouched. -/
theorem c5_witness :
    CreatePreset honestRemote emptyRemote presetC5a
      = (Outcome.err ("Unsupported Audio codec: " ++ presetC5a.Audio.Codec),
         emptyRemote)
  ∧ CreatePreset honestRemote emptyRemote presetC5b
      = (Outcome.err ("Unsupported Video codec: " ++ presetC5b.Video.Codec),
         emptyRemote) :=
  ⟨(c5_unsupported_codec_no_remote_call honestRemote emptyRemote presetC5a).1
      (by decide),
   (c5_unsupported_codec_no_remote_call honestRemote emptyRemote presetC5b).2
      (by decide) (by decide)⟩

/-- C6: the profile-level lookup is an exact string match against the
ordered level table: the level string 1 matches exactly the table entry
1 — not 1b and not 1.1, both of which are in the table — and any level
string matching no table entry makes the translation fail with the
unsupported-level error. -/
theorem c6_level_exact_match :
    h264Levels.find? (fun l => l = "1") = some ("1")
  ∧ ("1b" ∈ h264Levels ∧ "1.1" ∈ h264Levels
      ∧ h264Levels.find? (fun l => l = "1") ≠ some ("1b")
      ∧ h264Levels.find? (fun l => l = "1") ≠ some ("1.1"))
  ∧ (∀ (p : Preset) (prof : H264Profile), mapProfile p = Except.ok prof →
      p.Video.ProfileLevel ∉ h264Levels →
      createVideoPreset p
        = Except.error ("Unrecognized H264 Level: " ++ p.Video.ProfileLevel)) := by
  refine ⟨by decide, ⟨by decide, by decide, by decide, by decide⟩, ?_⟩
  intro p prof hm hlev
  have hfind : h264Levels.find? (fun l => l = p.Video.ProfileLevel) = none := by
    rw [List.find?_eq_none]
    intro x hx
    simp only [decide_eq_true_eq]
    intro hEq
    exact hlev (hEq ▸ hx)
  unfold createVideoPreset
  simp only [hm, hfind]

/-- Witness for C6 at the concrete level 7, which is in no table
entry: translation fails with the unsupported-level error. -/
theorem c6_witness :
    createVideoPreset presetC6
      = Except.error ("Unrecognized H264 Level: " ++ presetC6.Video.ProfileLevel) :=
  c6_level_exact_match.2.2 presetC6 H264Profile.main rfl (by decide)

/-- C9: DeletePreset touches no audio resource: the audio catalogue and
every audio call counter are unchanged, the dedup scan finds the same
configuration after deletion as before, and on success exactly the
video configuration named by the handle is removed. -/
theorem c9_delete_leaves_audio
    (b : RemoteBehavior) (st : RemoteState) (id : String) :
    (DeletePreset b st id).2.aacConfigs = st.aacConfigs
  ∧ (DeletePreset b st id).2.aacListCalls = st.aacListCalls
  ∧ (DeletePreset b st id).2.aacCreateCalls = st.aacCreateCalls
  ∧ (DeletePreset b st id).2.aacRetrieveCalls = st.aacRetrieveCalls
  ∧ (∀ bitrate, findAudioID bitrate (DeletePreset b st id).2.aacConfigs
      = findAudioID bitrate st.aacConfigs)
  ∧ ((DeletePreset b st id).1 = Except.ok () →
      (DeletePreset b st id).2.h264Configs
        = st.h264Configs.filter (fun c => c.id ≠ id)) := by
  unfold DeletePreset h264Delete
  cases h : b.h264DeleteStatus st.h264DeleteCalls <;> simp

/-- Witness for C9: deleting the handle cfg1 from a populated remote
succeeds and removes exactly the video configuration cfg1, while the
audio catalogue is untouched (instances of the general theorem). -/
theorem c9_witness :
    (DeletePreset honestRemote stC9 ("cfg1")).2.aacConfigs = stC9.aacConfigs
  ∧ (DeletePreset honestRemote stC9 ("cfg1")).2.h264Configs
      = stC9.h264Configs.filter (fun c => c.id ≠ "cfg1") :=
  ⟨(c9_delete_leaves_audio honestRemote stC9 ("cfg1")).1,
   (c9_delete_leaves_audio honestRemote stC9 ("cfg1")).2.2.2.2.2 rfl⟩

/-- Splitting a character list on a separator always yields at least
one group, exactly like Go strings.Split. -/
theorem splitOnChar_ne_nil (sep : Char) (l : List Char) :
    splitOnChar sep l ≠ [] := by
  induction l with
  | nil => simp [splitOnChar]
  | cons c cs ih =>
    unfold splitOnChar
    by_cases h : c = sep
    · simp [h]
    · simp only [if_neg h]
      cases hs : splitOnChar sep cs <;> simp

/-- Splitting a path on slashes always yields at least one segment, so
taking the final segment is safe even for an empty path. -/
theorem goSplitSlash_ne_nil (s : String) : goSplitSlash s ≠ [] := by
  unfold goSplitSlash
  intro h
  exact splitOnChar_ne_nil '/' s.toList (List.map_eq_nil_iff.mp h)

/-- C10: parseS3URL is total: on every input it returns either an error
(parse failure or unknown host) or a fully determined triple of file
name, bucket name and region, and it never panics — indexing the final
path segment is safe because the slash split is never empty. -/
theorem c10_parse_s3_url_total (input : String) :
    ((∃ e, parseS3URL input = Outcome.err e)
      ∨ (∃ f bkt r, parseS3URL input = Outcome.ok (f, bkt, r)))
  ∧ (∀ m, parseS3URL input ≠ Outcome.panicked m) := by
  have hmain : (∃ e, parseS3URL input = Outcome.err e)
      ∨ (∃ f bkt r, parseS3URL input = Outcome.ok (f, bkt, r)) := by
    unfold parseS3URL
    split
    · exact Or.inl ⟨_, rfl⟩
    · next hp heq =>
        obtain ⟨fn, hfn⟩ := Option.isSome_iff_exists.mp
          (List.getLast?_isSome.mpr (goSplitSlash_ne_nil hp.2))
        simp only [hfn]
        split
        · exact Or.inl ⟨_, rfl⟩
        · exact Or.inr ⟨_, _, _, rfl⟩
  refine ⟨hmain, ?_⟩
  intro m hpan
  rcases hmain with ⟨e, he⟩ | ⟨f, bkt, r, ho⟩
  · rw [hpan] at he; exact Outcome.noConfusion he
  · rw [hpan] at ho; exact Outcome.noConfusion ho

/-- C7: resolving the spec's example storage URL yields exactly the
file name video.mp4, the bucket name mybucket/path and the US-West-2
region; and in general every successful resolution returns as file name
the final slash-separated path segment and as bucket name the path with
that segment and the leading slash stripped. -/
theorem c7_resolve_storage_url :
    parseS3URL s3ExampleURL
      = Outcome.ok (("video.mp4"), ("mybucket/path"), AWSCloudRegion.usWest2)
  ∧ (∀ (input f bkt : String) (r : AWSCloudRegion),
      parseS3URL input = Outcome.ok (f, bkt, r) →
      ∃ host path, parseURL input = Except.ok (host, path)
        ∧ (goSplitSlash path).getLast? = some f
        ∧ bkt = goTrimStart (goTrimSuffix path ("/" ++ f)) ("/")) := by
  constructor
  · rfl
  · intro input f bkt r h
    unfold parseS3URL at h
    split at h
    · exact Outcome.noConfusion h
    · next hp heq =>
        obtain ⟨fn, hfn⟩ := Option.isSome_iff_exists.mp
          (List.getLast?_isSome.mpr (goSplitSlash_ne_nil hp.2))
        simp only [hfn] at h
        split at h
        · exact Outcome.noConfusion h
        · next entry hfound =>
            simp only [Outcome.ok.injEq, Prod.mk.injEq] at h
            obtain ⟨h1, h2, h3⟩ := h
            subst h1
            exact ⟨hp.1, hp.2, heq, hfn, h2.symm⟩

/-- Witness for C7: the general decomposition instantiated at the
example URL, discharged by the concrete resolution. -/
theorem c7_witness :
    ∃ host path, parseURL s3ExampleURL = Except.ok (host, path)
      ∧ (goSplitSlash path).getLast? = some ("video.mp4")
      ∧ ("mybucket/path" : String)
          = goTrimStart (goTrimSuffix path ("/" ++ "video.mp4")) ("/") :=
  c7_resolve_storage_url.2 s3ExampleURL ("video.mp4") ("mybucket/path")
    AWSCloudRegion.usWest2 c7_resolve_storage_url.1

/-- C4 as amended: the optional numeric fields Width, Height and
GopSize tolerate the empty string — they are simply left unset — and a
non-empty unparsable value for one of them makes the video translation
step fail with the numeric parse error naming the value; Audio.Bitrate,
however, does not tolerate the empty string: CreatePreset fails with
the numeric parse error for the empty string. -/
theorem c4_amended :
    (∀ p : Preset, p.Video.Profile = "" → p.Video.ProfileLevel = "3" →
      p.Video.Bitrate = "3000" → p.Video.Width = "" → p.Video.Height = "" →
      p.Video.GopSize = "" →
      createVideoPreset p
        = Except.ok ⟨"", H264Profile.main, ("3"), none, none, some 3000, none, []⟩)
  ∧ (∀ (p : Preset) (e : String) (prof : H264Profile) (lvl : String),
      mapProfile p = Except.ok prof →
      h264Levels.find? (fun l => l = p.Video.ProfileLevel) = some lvl →
      p.Video.Width ≠ "" → goAtoi p.Video.Width = Except.error e →
      createVideoPreset p = Except.error e)
  ∧ (∀ (p : Preset) (e : String) (prof : H264Profile) (lvl : String),
      mapProfile p = Except.ok prof →
      h264Levels.find? (fun l => l = p.Video.ProfileLevel) = some lvl →
      p.Video.Width = "" →
      p.Video.Height ≠ "" → goAtoi p.Video.Height = Except.error e →
      createVideoPreset p = Except.error e)
  ∧ (∀ (p : Preset) (e : String) (prof : H264Profile) (lvl : String) (n : Int),
      mapProfile p = Except.ok prof →
      h264Levels.find? (fun l => l = p.Video.ProfileLevel) = some lvl →
      p.Video.Width = "" → p.Video.Height = "" →
      p.Video.Bitrate ≠ "" → goAtoi p.Video.Bitrate = Except.ok n →
      p.Video.GopSize ≠ "" → goAtoi p.Video.GopSize = Except.error e →
      createVideoPreset p = Except.error e)
  ∧ (∀ (p : Preset) (st : RemoteState),
      goToLower p.Audio.Codec = "aac" → goToLower p.Video.Codec = "h264" →
      p.Audio.Bitrate = "" →
      (CreatePreset honestRemote st p).1 = Outcome.err (atoiSyntaxErr (""))) := by
  refine ⟨?_, ?_, ?_, ?_, ?_⟩
  · rintro ⟨⟨vc, vp, vl, vw, vh, vb, vg⟩, a⟩ h1 h2 h3 h4 h5 h6
    simp only at h1 h2 h3 h4 h5 h6
    subst h1 h2 h3 h4 h5 h6
    rfl
  · intro p e prof lvl hm hf hw hgw
    have hpw : parseOptionalField p.Video.Width = Except.error e := by
      unfold parseOptionalField
      rw [if_pos hw, hgw]
    unfold createVideoPreset
    simp only [hm, hf, hpw]
  · intro p e prof lvl hm hf hw0 hh hgh
    have hpw : parseOptionalField p.Video.Width = Except.ok none := by
      simp [parseOptionalField, hw0]
    have hph : parseOptionalField p.Video.Height = Except.error e := by
      unfold parseOptionalField
      rw [if_pos hh, hgh]
    unfold createVideoPreset
    simp only [hm, hf, hpw, hph]
  · intro p e prof lvl n hm hf hw0 hh0 hb hgb hg hgg
    have hpw : parseOptionalField p.Video.Width = Except.ok none := by
      simp [parseOptionalField, hw0]
    have hph : parseOptionalField p.Video.Height = Except.ok none := by
      simp [parseOptionalField, hh0]
    have hpg : parseOptionalField p.Video.GopSize = Except.error e := by
      unfold parseOptionalField
      rw [if_pos hg, hgg]
    unfold createVideoPreset
    simp only [hm, hf, hpw, hph, if_neg hb, hgb, hpg]
  · rintro ⟨v, ⟨ac, ab⟩⟩ st hac hvc hab
    simp only at hac hvc hab
    subst hab
    unfold CreatePreset
    rw [if_neg (not_not_intro hac), if_neg (not_not_intro hvc)]
    simp [aacList, honestRemote, goAtoi, atoiSyntaxErr, goQuote]

/-- Witness for C4 as amended, at concrete presets: empty optional
fields are tolerated; the unparsable width 12x, height 7h and GOP size
g9 each fail with the parse error naming the value; and the empty audio
bitrate makes CreatePreset fail. -/
theorem c4_amended_witness :
    createVideoPreset ⟨⟨"h264", "", "3", "", "", "3000", ""⟩, ⟨"aac", "128"⟩⟩
      = Except.ok ⟨"", H264Profile.main, ("3"), none, none, some 3000, none, []⟩
  ∧ createVideoPreset ⟨⟨"h264", "", "3", "12x", "", "3000", ""⟩, ⟨"aac", "128"⟩⟩
      = Except.error (atoiSyntaxErr ("12x"))
  ∧ createVideoPreset ⟨⟨"h264", "", "3", "", "7h", "3000", ""⟩, ⟨"aac", "128"⟩⟩
      = Except.error (atoiSyntaxErr ("7h"))
  ∧ createVideoPreset ⟨⟨"h264", "", "3", "", "", "3000", "g9"⟩, ⟨"aac", "128"⟩⟩
      = Except.error (atoiSyntaxErr ("g9"))
  ∧ (CreatePreset honestRemote emptyRemote
        ⟨⟨"h264", "main", "3", "", "", "3000", ""⟩, ⟨"aac", ""⟩⟩).1
      = Outcome.err (atoiSyntaxErr ("")) :=
  ⟨c4_amended.1 _ rfl rfl rfl rfl rfl rfl,
   c4_amended.2.1 _ (atoiSyntaxErr ("12x")) H264Profile.main ("3")
     rfl rfl (by decide) rfl,
   c4_amended.2.2.1 _ (atoiSyntaxErr ("7h")) H264Profile.main ("3")
     rfl rfl rfl (by decide) rfl,
   c4_amended.2.2.2.1 _ (atoiSyntaxErr ("g9")) H264Profile.main ("3") 3000
     rfl rfl rfl rfl (by decide) rfl (by decide) rfl,
   c4_amended.2.2.2.2 _ emptyRemote rfl rfl rfl⟩

/-- A remote behaviour whose video retrieve endpoint reports an ERROR
status with the given message on every call. -/
def failRetrieve (msg : String) : RemoteBehavior :=
  { honestRemote with h264RetrieveStatus := fun _ => some msg }

/-- A remote behaviour whose audio retrieve endpoint reports an ERROR
status with the given message on every call. -/
def failAacRetrieve (msg : String) : RemoteBehavior :=
  { honestRemote with aacRetrieveStatus := fun _ => some msg }

/-- A remote behaviour whose audio list endpoint reports an ERROR
status with the given message on every call. -/
def failList (msg : String) : RemoteBehavior :=
  { honestRemote with aacListStatus := fun _ => some msg }

/-- A remote behaviour whose audio list endpoint succeeds on the first
call and reports an ERROR status on the second. -/
def failSecondList (msg : String) : RemoteBehavior :=
  { honestRemote with aacListStatus := fun k => if k = 1 then some msg else none }

/-- A remote behaviour whose audio create endpoint reports an ERROR
status with the given message on every call. -/
def failAacCreate (msg : String) : RemoteBehavior :=
  { honestRemote with aacCreateStatus := fun _ => some msg }

/-- A remote behaviour whose video create endpoint reports an ERROR
status with the given message on every call. -/
def failH264Create (msg : String) : RemoteBehavior :=
  { honestRemote with h264CreateStatus := fun _ => some msg }

/-- A remote state with two audio configurations (so the off-by-one
listing still surfaces the first) and one video configuration that
references the first audio configuration. -/
def stC8 : RemoteState :=
  ⟨[⟨"a128", 128, 48000⟩, ⟨"a64", 64, 48000⟩],
   [⟨"v1", H264Profile.main, "3", none, none, some 3000, none,
      [("audio", CustomValue.str ("a128"))]⟩],
   0, 0, 0, 0, 0, 0, 0⟩

/-- C8 as amended: a remote call answering with a service-level ERROR
status makes the operation return an error value (never a panic), but
the returned error is empty — it carries neither the failed operation
nor the service's message.  One conjunct per ERROR branch of the
source: DeletePreset's delete, GetPreset's video retrieve and audio
retrieve, and CreatePreset's first list, second list, audio create and
video create. -/
theorem c8_amended (b : RemoteBehavior) (st : RemoteState) (id m : String) :
    (b.h264DeleteStatus st.h264DeleteCalls = some m →
      (DeletePreset b st id).1 = Except.error (""))
  ∧ (b.h264RetrieveStatus st.h264RetrieveCalls = some m →
      (GetPreset b st id).1 = (none, some ("")))
  ∧ (∀ (cfg : H264CodecConfiguration) (kv : String × CustomValue) (s : String),
      b.h264RetrieveStatus st.h264RetrieveCalls = none →
      st.h264Configs.find? (fun c => c.id = id) = some cfg →
      cfg.customData.find? (fun q => q.1 = "audio") = some kv →
      kv.2 = CustomValue.str s →
      b.aacRetrieveStatus st.aacRetrieveCalls = some m →
      (GetPreset b st id).1 = (none, some ("")))
  ∧ (∀ p : Preset, goToLower p.Audio.Codec = "aac" →
      goToLower p.Video.Codec = "h264" →
      b.aacListStatus st.aacListCalls = some m →
      (CreatePreset b st p).1 = Outcome.err (""))
  ∧ (∀ p : Preset, goToLower p.Audio.Codec = "aac" →
      goToLower p.Video.Codec = "h264" →
      b.aacListStatus st.aacListCalls = none →
      b.aacListStatus (st.aacListCalls + 1) = some m →
      (CreatePreset b st p).1 = Outcome.err (""))
  ∧ (∀ (p : Preset) (n : Int), goToLower p.Audio.Codec = "aac" →
      goToLower p.Video.Codec = "h264" →
      b.aacListStatus st.aacListCalls = none →
      b.aacListStatus (st.aacListCalls + 1) = none →
      goAtoi p.Audio.Bitrate = Except.ok n →
      findAudioID n ((st.aacConfigs.drop ((0 : Int)).toNat).take
        (((st.aacConfigs.length : Int) - 1)).toNat) = "" →
      b.aacCreateStatus st.aacCreateCalls = some m →
      (CreatePreset b st p).1 = Outcome.err (""))
  ∧ (∀ (p : Preset) (n : Int) (aid : String) (cfg : H264CodecConfiguration),
      goToLower p.Audio.Codec = "aac" →
      goToLower p.Video.Codec = "h264" →
      b.aacListStatus st.aacListCalls = none →
      b.aacListStatus (st.aacListCalls + 1) = none →
      goAtoi p.Audio.Bitrate = Except.ok n →
      findAudioID n ((st.aacConfigs.drop ((0 : Int)).toNat).take
        (((st.aacConfigs.length : Int) - 1)).toNat) = aid →
      aid ≠ "" →
      createVideoPreset p = Except.ok cfg →
      b.h264CreateStatus st.h264CreateCalls = some m →
      (CreatePreset b st p).1 = Outcome.err (""))
  ∧ (∀ (p : Preset) (n : Int) (cfg : H264CodecConfiguration),
      goToLower p.Audio.Codec = "aac" →
      goToLower p.Video.Codec = "h264" →
      b.aacListStatus st.aacListCalls = none →
      b.aacListStatus (st.aacListCalls + 1) = none →
      goAtoi p.Audio.Bitrate = Except.ok n →
      findAudioID n ((st.aacConfigs.drop ((0 : Int)).toNat).take
        (((st.aacConfigs.length : Int) - 1)).toNat) = "" →
      b.aacCreateStatus st.aacCreateCalls = none →
      createVideoPreset p = Except.ok cfg →
      b.h264CreateStatus st.h264CreateCalls = some m →
      (CreatePreset b st p).1 = Outcome.err ("")) := by
  refine ⟨?_, ?_, ?_, ?_, ?_, ?_, ?_, ?_⟩
  · intro h
    unfold DeletePreset h264Delete
    simp only [h]
  · intro h
    unfold GetPreset h264Retrieve
    simp only [h]
  · intro cfg kv s h1 h2 h3 h4 h5
    unfold GetPreset h264Retrieve aacRetrieve
    simp only [h1, h2, h3, h4, h5]
  · intro p h1 h2 h3
    unfold CreatePreset
    rw [if_neg (not_not_intro h1), if_neg (not_not_intro h2)]
    unfold aacList
    simp only [h3]
  · intro p h1 h2 h3 h4
    unfold CreatePreset
    rw [if_neg (not_not_intro h1), if_neg (not_not_intro h2)]
    unfold aacList
    simp only [h3, h4]
  · intro p n h1 h2 h3 h4 h5 h6 h7
    unfold CreatePreset
    rw [if_neg (not_not_intro h1), if_neg (not_not_intro h2)]
    unfold aacList aacCreate
    simp only [h3, h4, h5, h6, h7]
    simp
  · intro p n aid cfg h1 h2 h3 h4 h5 h6 h7 h8 h9
    unfold CreatePreset
    rw [if_neg (not_not_intro h1), if_neg (not_not_intro h2)]
    unfold aacList h264Create
    simp only [h3, h4, h5, h6, if_neg h7, h8, h9]
  · intro p n cfg h1 h2 h3 h4 h5 h6 h7 h8 h9
    unfold CreatePreset
    rw [if_neg (not_not_intro h1), if_neg (not_not_intro h2)]
    unfold aacList aacCreate h264Create
    simp only [h3, h4, h5, h6, h7, h8, h9]
    simp [h9]

/-- Witness for C8 as amended, instantiating every conjunct: an ERROR
status at any of the seven remote call sites — the delete, the two
retrieves, the two list calls, the audio create (dedup miss from an
empty catalogue) and the video create (both on a dedup hit and after a
successful audio create) — yields exactly the empty error. -/
theorem c8_amended_witness :
    (DeletePreset (failDelete ("zap")) emptyRemote ("x")).1 = Except.error ("")
  ∧ (GetPreset (failRetrieve ("boom")) emptyRemote ("x")).1 = (none, some (""))
  ∧ (GetPreset (failAacRetrieve ("boom")) stC8 ("v1")).1 = (none, some (""))
  ∧ (CreatePreset (failList ("boom")) emptyRemote presetC3).1 = Outcome.err ("")
  ∧ (CreatePreset (failSecondList ("boom")) emptyRemote presetC3).1
      = Outcome.err ("")
  ∧ (CreatePreset (failAacCreate ("boom")) emptyRemote presetC3).1
      = Outcome.err ("")
  ∧ (CreatePreset (failH264Create ("boom")) stC8 presetC3).1 = Outcome.err ("")
  ∧ (CreatePreset (failH264Create ("zap")) emptyRemote presetC3).1
      = Outcome.err ("") :=
  ⟨(c8_amended (failDelete ("zap")) emptyRemote ("x") ("zap")).1 rfl,
   (c8_amended (failRetrieve ("boom")) emptyRemote ("x") ("boom")).2.1 rfl,
   (c8_amended (failAacRetrieve ("boom")) stC8 ("v1") ("boom")).2.2.1
     ⟨"v1", H264Profile.main, "3", none, none, some 3000, none,
       [("audio", CustomValue.str ("a128"))]⟩
     ("audio", CustomValue.str ("a128")) ("a128") rfl rfl rfl rfl rfl,
   (c8_amended (failList ("boom")) emptyRemote ("x") ("boom")).2.2.2.1
     presetC3 rfl rfl rfl,
   (c8_amended (failSecondList ("boom")) emptyRemote ("x") ("boom")).2.2.2.2.1
     presetC3 rfl rfl rfl rfl,
   (c8_amended (failAacCreate ("boom")) emptyRemote ("x") ("boom")).2.2.2.2.2.1
     presetC3 128 rfl rfl rfl rfl rfl rfl rfl,
   (c8_amended (failH264Create ("boom")) stC8 ("x") ("boom")).2.2.2.2.2.2.1
     presetC3 128 ("a128")
     ⟨"", H264Profile.main, "3", none, none, some 3000, none, []⟩
     rfl rfl rfl rfl rfl rfl (by decide) rfl rfl,
   (c8_amended (failH264Create ("zap")) emptyRemote ("x") ("zap")).2.2.2.2.2.2.2
     presetC3 128
     ⟨"", H264Profile.main, "3", none, none, some 3000, none, []⟩
     rfl rfl rfl rfl rfl rfl rfl rfl rfl⟩
